import Mathlib

/-
Verification of the SHT3x I2C driver core (src/SHT3x.cpp together with
SHT3x.h, Config.h, CommandTable.h) against its natural-language
specification.  The C++ driver is shallowly embedded: machine integers
become Nat (with explicit mod 2^32 where unsigned wrap matters), the I2C
transport callbacks become a scripted bus that records every invocation,
and the ambient millisecond clock becomes an explicit argument.  The
bounded idle-wait helpers (ensureCommandDelay, waitMs) spin on the real
clock until the requested delay has elapsed; in this discrete embedding
they are modelled as completing successfully, which matches every
execution in which the clock advances.
-/

namespace SHT3xSpec

/-- Error codes of the driver (Status.h, spec section 7). -/
inductive Err where
  | OK
  | NOT_INITIALIZED
  | INVALID_CONFIG
  | INVALID_PARAM
  | DEVICE_NOT_FOUND
  | I2C_ERROR
  | I2C_NACK_ADDR
  | I2C_NACK_DATA
  | I2C_NACK_READ
  | I2C_TIMEOUT
  | I2C_BUS
  | TIMEOUT
  | CRC_MISMATCH
  | COMMAND_FAILED
  | WRITE_CRC_ERROR
  | MEASUREMENT_NOT_READY
  | BUSY
  | IN_PROGRESS
  | UNSUPPORTED
  deriving DecidableEq, Repr

/-- Driver health state (SHT3x.h). -/
inductive DriverState where
  | UNINIT
  | READY
  | DEGRADED
  | OFFLINE
  deriving DecidableEq, Repr

/-- Measurement repeatability (Config.h). -/
inductive Repeatability where
  | LOW_REPEATABILITY
  | MEDIUM_REPEATABILITY
  | HIGH_REPEATABILITY
  deriving DecidableEq, Repr

/-- Clock stretching mode (Config.h). -/
inductive ClockStretching where
  | STRETCH_DISABLED
  | STRETCH_ENABLED
  deriving DecidableEq, Repr

/-- Periodic measurement rate (Config.h). -/
inductive PeriodicRate where
  | MPS_0_5
  | MPS_1
  | MPS_2
  | MPS_4
  | MPS_10
  deriving DecidableEq, Repr

/-- Driver operating mode (Config.h). -/
inductive Mode where
  | SINGLE_SHOT
  | PERIODIC
  | ART
  deriving DecidableEq, Repr

/-- Alert limit selector (SHT3x.h). -/
inductive AlertLimitKind where
  | HIGH_SET
  | HIGH_CLEAR
  | LOW_CLEAR
  | LOW_SET
  deriving DecidableEq, Repr

/-- 2^32, the modulus of uint32_t arithmetic. -/
def U32MOD : Nat := 4294967296

/-- 2^31, the signed / unsigned boundary of int32_t. -/
def I32HALF : Nat := 2147483648

/-- Largest uint32_t value (saturation bound of the health counters). -/
def U32MAX : Nat := 4294967295

/-- Largest uint8_t value (saturation bound of consecutiveFailures). -/
def U8MAX : Nat := 255

/-- Reduce a Nat to uint32_t range. -/
def u32 (x : Nat) : Nat := x % U32MOD

/-- uint32_t subtraction a - b with wraparound (b is first reduced mod 2^32). -/
def u32sub (a b : Nat) : Nat := (a + U32MOD - b % U32MOD) % U32MOD

/-- Reinterpret a uint32_t value as int32_t (the static_cast in the source). -/
def toInt32 (x : Nat) : Int :=
  if x % U32MOD < I32HALF then ((x % U32MOD : Nat) : Int)
  else ((x % U32MOD : Nat) : Int) - (U32MOD : Int)

/-- SHT3x::_timeElapsed (SHT3x.cpp lines 1506-1508): wrap-safe time
comparison, true when the uint32_t difference now - target is nonnegative
as an int32_t. -/
def timeElapsed (now target : Nat) : Bool :=
  decide (0 ≤ toInt32 (u32sub now target))

/-- One shift-xor round of CRC-8 on the accumulator (poly 0x31), from the
inner loop of SHT3x::_crc8. -/
def crc8bit (crc : Nat) : Nat :=
  if 128 ≤ crc % 256 then (((crc % 256) * 2) ^^^ 49) % 256 else ((crc % 256) * 2) % 256

/-- Fold one data byte into the CRC-8 accumulator (SHT3x::_crc8 outer loop
body: xor the byte, then eight bit rounds). -/
def crc8byte (crc byte : Nat) : Nat :=
  crc8bit^[8] ((crc % 256) ^^^ (byte % 256))

/-- SHT3x::_crc8 (SHT3x.cpp lines 1401-1414): CRC-8, poly 0x31, init 0xFF,
over a list of bytes. -/
def crc8 (data : List Nat) : Nat := data.foldl crc8byte 255

/-- SHT3x::convertTemperatureC_x100 (SHT3x.cpp lines 946-950): fixed-point
temperature conversion in int32_t arithmetic. -/
def convertTemperatureC_x100 (raw : Nat) : Int :=
  (((17500 * raw + 32767) / 65535 : Nat) : Int) - 4500

/-- SHT3x::convertHumidityPct_x100 (SHT3x.cpp lines 952-955): fixed-point
humidity conversion in uint32_t arithmetic. -/
def convertHumidityPct_x100 (raw : Nat) : Nat :=
  (10000 * raw + 32767) / 65535

/-- Round-half-up division p / q as the specification words it (used only to
state the rounding claim; exact halves round up). -/
def roundHalfUpDiv (p q : Nat) : Nat := (2 * p + q) / (2 * q)

/-- One response of the scripted I2C transport: the Status code the callback
returns and, for read transactions, the bytes it deposits in the rx buffer. -/
structure BusResponse where
  status : Err
  rx : List Nat
  deriving DecidableEq, Repr

/-- The scripted transport.  Each callback invocation consumes the head of
the script (returning OK with no data once the script is exhausted) and
appends the transmitted bytes to the log, so the log length counts the
transport callback invocations. -/
structure Bus where
  script : List BusResponse
  txLog : List (List Nat)
  deriving DecidableEq, Repr

/-- One transport callback invocation transmitting the bytes tx. -/
def Bus.next (tx : List Nat) (b : Bus) : BusResponse × Bus :=
  match b.script with
  | [] => ({ status := Err.OK, rx := [] }, { b with txLog := b.txLog ++ [tx] })
  | r :: rest => (r, { script := rest, txLog := b.txLog ++ [tx] })

/-- Number of transport callback invocations recorded so far. -/
def Bus.calls (b : Bus) : Nat := b.txLog.length

/-- The Status codes an I2C transport callback may legally return
(Config.h callback contract, spec section 6). -/
def TransportLegal (e : Err) : Prop :=
  e = Err.OK ∨ e = Err.I2C_NACK_ADDR ∨ e = Err.I2C_NACK_DATA ∨
  e = Err.I2C_NACK_READ ∨ e = Err.I2C_TIMEOUT ∨ e = Err.I2C_BUS ∨
  e = Err.I2C_ERROR ∨ e = Err.INVALID_PARAM

instance (e : Err) : Decidable (TransportLegal e) := by
  unfold TransportLegal; infer_instance

/-- A bus whose whole script obeys the transport contract. -/
def Bus.WF (b : Bus) : Prop := ∀ r ∈ b.script, TransportLegal r.status

/-- The driver instance: the Config fields the core reads, plus all mutable
state of class SHT3x (SHT3x.h lines 425-460).  uint32_t / uint8_t members
become Nat, timestamps are milliseconds. -/
structure Driver where
  capReadHeaderNack : Bool
  commandDelayMs : Nat
  notReadyTimeoutMs : Nat
  offlineThreshold : Nat
  cfgRepeatability : Repeatability
  cfgClockStretching : ClockStretching
  cfgPeriodicRate : PeriodicRate
  cfgMode : Mode
  lowVdd : Bool
  initialized : Bool
  driverState : DriverState
  lastOkMs : Nat
  lastErrorMs : Nat
  lastBusActivityMs : Nat
  lastError : Err
  consecutiveFailures : Nat
  totalFailures : Nat
  totalSuccess : Nat
  lastCommandUs : Nat
  measurementRequested : Bool
  measurementReady : Bool
  measurementReadyMs : Nat
  periodicStartMs : Nat
  lastFetchMs : Nat
  periodMs : Nat
  sampleTimestampMs : Nat
  missedSamples : Nat
  notReadyStartMs : Nat
  notReadyCount : Nat
  rawTemperature : Nat
  rawHumidity : Nat
  tempC_x100 : Int
  humidityPct_x100 : Nat
  mode : Mode
  periodicActive : Bool
  deriving DecidableEq, Repr

/-- SHT3x::_recordBusActivity (SHT3x.cpp lines 1157-1159). -/
def recordBusActivity (now : Nat) (s : Driver) : Driver :=
  { s with lastBusActivityMs := now }

/-- Saturating uint32_t increment, as the health counters do it. -/
def satInc32 (n : Nat) : Nat := if n < U32MAX then n + 1 else n

/-- Saturating uint8_t increment, as consecutiveFailures does it. -/
def satInc8 (n : Nat) : Nat := if n < U8MAX then n + 1 else n

/-- SHT3x::_updateHealth (SHT3x.cpp lines 1112-1155): record bus activity,
then update timestamps, counters and DriverState from the tracked Status. -/
def updateHealth (now : Nat) (st : Err) (s : Driver) : Err × Driver :=
  let s := recordBusActivity now s
  if s.initialized = false then
    if st = Err.OK then (st, { s with lastOkMs := now })
    else (st, { s with lastError := st, lastErrorMs := now })
  else if st = Err.OK then
    (st, { s with lastOkMs := now, totalSuccess := satInc32 s.totalSuccess,
                  consecutiveFailures := 0, driverState := DriverState.READY })
  else
    let cf := satInc8 s.consecutiveFailures
    (st, { s with lastError := st, lastErrorMs := now,
                  totalFailures := satInc32 s.totalFailures,
                  consecutiveFailures := cf,
                  driverState := if s.offlineThreshold ≤ cf then DriverState.OFFLINE
                                 else DriverState.DEGRADED })

/-- SHT3x::_i2cWriteTracked (SHT3x.cpp lines 1033-1043): raw write (one
transport invocation), INVALID_CONFIG / INVALID_PARAM bypass the health
tracker, everything else goes through updateHealth. -/
def i2cWriteTracked (now : Nat) (tx : List Nat) (s : Driver) (b : Bus) :
    Err × Driver × Bus :=
  let rb := b.next tx
  if rb.1.status = Err.INVALID_CONFIG ∨ rb.1.status = Err.INVALID_PARAM then
    (rb.1.status, s, rb.2)
  else
    ((updateHealth now rb.1.status s).1, (updateHealth now rb.1.status s).2, rb.2)

/-- SHT3x::_i2cWriteReadTracked (SHT3x.cpp lines 998-1009): pure read (one
transport invocation) with health tracking. -/
def i2cWriteReadTracked (now : Nat) (rxLen : Nat) (s : Driver) (b : Bus) :
    Err × List Nat × Driver × Bus :=
  let rb := b.next []
  if rb.1.status = Err.INVALID_CONFIG ∨ rb.1.status = Err.INVALID_PARAM then
    (rb.1.status, rb.1.rx, s, rb.2)
  else
    ((updateHealth now rb.1.status s).1, rb.1.rx, (updateHealth now rb.1.status s).2, rb.2)

/-- SHT3x::_i2cWriteReadTrackedAllowNoData (SHT3x.cpp lines 1011-1031):
the expected-NACK path.  When allowNoData is requested AND the transport
declares READ_HEADER_NACK AND the transport returns I2C_NACK_READ on a pure
read (txLen == 0, rxLen > 0), the call records bus activity and returns
MEASUREMENT_NOT_READY without touching health counters; otherwise the
status goes through updateHealth unchanged. -/
def i2cWriteReadTrackedAllowNoData (now txLen rxLen : Nat) (allowNoData : Bool)
    (s : Driver) (b : Bus) : Err × List Nat × Driver × Bus :=
  let allow := allowNoData && s.capReadHeaderNack
  let rb := b.next []
  if rb.1.status = Err.INVALID_CONFIG ∨ rb.1.status = Err.INVALID_PARAM then
    (rb.1.status, rb.1.rx, s, rb.2)
  else if allow = true ∧ rb.1.status = Err.I2C_NACK_READ ∧ txLen = 0 ∧ 0 < rxLen then
    (Err.MEASUREMENT_NOT_READY, rb.1.rx, recordBusActivity now s, rb.2)
  else
    ((updateHealth now rb.1.status s).1, rb.1.rx, (updateHealth now rb.1.status s).2, rb.2)

/-- Command constants (CommandTable.h). -/
def CMD_FETCH_DATA : Nat := 0xE000

/-- CommandTable.h: ART start command. -/
def CMD_ART : Nat := 0x2B32

/-- CommandTable.h: Break (stop periodic) command. -/
def CMD_BREAK : Nat := 0x3093

/-- CommandTable.h: read status register command. -/
def CMD_READ_STATUS : Nat := 0xF32D

/-- CommandTable.h: clear status command. -/
def CMD_CLEAR_STATUS : Nat := 0x3041

/-- CommandTable.h: soft reset command. -/
def CMD_SOFT_RESET : Nat := 0x30A2

/-- CommandTable.h: heater enable command. -/
def CMD_HEATER_ENABLE : Nat := 0x306D

/-- CommandTable.h: heater disable command. -/
def CMD_HEATER_DISABLE : Nat := 0x3066

/-- CommandTable.h: serial number command, clock stretching enabled. -/
def CMD_SERIAL_STRETCH : Nat := 0x3780

/-- CommandTable.h: serial number command, clock stretching disabled. -/
def CMD_SERIAL_NO_STRETCH : Nat := 0x3682

/-- SHT3x::_commandForSingleShot (SHT3x.cpp lines 1416-1431).  The Lean
enums hold exactly the valid values, so the C++ default-return-0 branch is
unreachable and omitted. -/
def commandForSingleShot (rep : Repeatability) (stretch : ClockStretching) : Nat :=
  match rep, stretch with
  | Repeatability.HIGH_REPEATABILITY, ClockStretching.STRETCH_ENABLED => 0x2C06
  | Repeatability.HIGH_REPEATABILITY, ClockStretching.STRETCH_DISABLED => 0x2400
  | Repeatability.MEDIUM_REPEATABILITY, ClockStretching.STRETCH_ENABLED => 0x2C0D
  | Repeatability.MEDIUM_REPEATABILITY, ClockStretching.STRETCH_DISABLED => 0x240B
  | Repeatability.LOW_REPEATABILITY, ClockStretching.STRETCH_ENABLED => 0x2C10
  | Repeatability.LOW_REPEATABILITY, ClockStretching.STRETCH_DISABLED => 0x2416

/-- SHT3x::_commandForPeriodic (SHT3x.cpp lines 1433-1473). -/
def commandForPeriodic (rep : Repeatability) (rate : PeriodicRate) : Nat :=
  match rate, rep with
  | PeriodicRate.MPS_0_5, Repeatability.HIGH_REPEATABILITY => 0x2032
  | PeriodicRate.MPS_0_5, Repeatability.MEDIUM_REPEATABILITY => 0x2024
  | PeriodicRate.MPS_0_5, Repeatability.LOW_REPEATABILITY => 0x202F
  | PeriodicRate.MPS_1, Repeatability.HIGH_REPEATABILITY => 0x2130
  | PeriodicRate.MPS_1, Repeatability.MEDIUM_REPEATABILITY => 0x2126
  | PeriodicRate.MPS_1, Repeatability.LOW_REPEATABILITY => 0x212D
  | PeriodicRate.MPS_2, Repeatability.HIGH_REPEATABILITY => 0x2236
  | PeriodicRate.MPS_2, Repeatability.MEDIUM_REPEATABILITY => 0x2220
  | PeriodicRate.MPS_2, Repeatability.LOW_REPEATABILITY => 0x222B
  | PeriodicRate.MPS_4, Repeatability.HIGH_REPEATABILITY => 0x2334
  | PeriodicRate.MPS_4, Repeatability.MEDIUM_REPEATABILITY => 0x2322
  | PeriodicRate.MPS_4, Repeatability.LOW_REPEATABILITY => 0x2329
  | PeriodicRate.MPS_10, Repeatability.HIGH_REPEATABILITY => 0x2737
  | PeriodicRate.MPS_10, Repeatability.MEDIUM_REPEATABILITY => 0x2721
  | PeriodicRate.MPS_10, Repeatability.LOW_REPEATABILITY => 0x272A

/-- SHT3x::_commandForAlertRead (SHT3x.cpp lines 1475-1483). -/
def commandForAlertRead (kind : AlertLimitKind) : Nat :=
  match kind with
  | AlertLimitKind.HIGH_SET => 0xE11F
  | AlertLimitKind.HIGH_CLEAR => 0xE114
  | AlertLimitKind.LOW_CLEAR => 0xE109
  | AlertLimitKind.LOW_SET => 0xE102

/-- SHT3x::_commandForAlertWrite (SHT3x.cpp lines 1485-1493). -/
def commandForAlertWrite (kind : AlertLimitKind) : Nat :=
  match kind with
  | AlertLimitKind.HIGH_SET => 0x611D
  | AlertLimitKind.HIGH_CLEAR => 0x6116
  | AlertLimitKind.LOW_CLEAR => 0x610B
  | AlertLimitKind.LOW_SET => 0x6100

/-- SHT3x::_periodMsForRate (SHT3x.cpp lines 1495-1504). -/
def periodMsForRate (rate : PeriodicRate) : Nat :=
  match rate with
  | PeriodicRate.MPS_0_5 => 2000
  | PeriodicRate.MPS_1 => 1000
  | PeriodicRate.MPS_2 => 500
  | PeriodicRate.MPS_4 => 250
  | PeriodicRate.MPS_10 => 100

/-- The anonymous-namespace helper baseMeasurementMs (SHT3x.cpp lines 48-64). -/
def baseMeasurementMs (rep : Repeatability) (lowVdd : Bool) : Nat :=
  if lowVdd then
    match rep with
    | Repeatability.LOW_REPEATABILITY => 5
    | Repeatability.MEDIUM_REPEATABILITY => 7
    | Repeatability.HIGH_REPEATABILITY => 16
  else
    match rep with
    | Repeatability.LOW_REPEATABILITY => 4
    | Repeatability.MEDIUM_REPEATABILITY => 6
    | Repeatability.HIGH_REPEATABILITY => 15

/-- SHT3x::estimateMeasurementTimeMs (SHT3x.cpp lines 957-960): base time
plus the 1 ms MEASUREMENT_MARGIN_MS. -/
def estimateMeasurementTimeMs (s : Driver) : Nat :=
  baseMeasurementMs s.cfgRepeatability s.lowVdd + 1

/-- Byte i of an rx buffer, default 0 (the C++ buffers are zero-initialized
and the transport deposits uint8 values). -/
def byteAt (l : List Nat) (i : Nat) : Nat := (l.getD i 0) % 256

/-- SHT3x::_writeCommand (SHT3x.cpp lines 1045-1059): idle gate (modelled as
elapsed), transmit the two command bytes MSB-first, record lastCommandUs
(micros is modelled as now * 1000). -/
def writeCommand (now c : Nat) (tracked : Bool) (s : Driver) (b : Bus) :
    Err × Driver × Bus :=
  let tx := [c / 256 % 256, c % 256]
  if tracked then
    let r := i2cWriteTracked now tx s b
    if r.1 = Err.OK then (Err.OK, { r.2.1 with lastCommandUs := u32 (now * 1000) }, r.2.2)
    else (r.1, r.2.1, r.2.2)
  else
    let rb := b.next tx
    if rb.1.status = Err.OK then (Err.OK, { s with lastCommandUs := u32 (now * 1000) }, rb.2)
    else (rb.1.status, s, rb.2)

/-- SHT3x::_writeCommandWithData (SHT3x.cpp lines 1061-1082): command bytes,
data bytes, CRC of the data bytes. -/
def writeCommandWithData (now c data : Nat) (tracked : Bool) (s : Driver) (b : Bus) :
    Err × Driver × Bus :=
  let tx := [c / 256 % 256, c % 256, data / 256 % 256, data % 256,
             crc8 [data / 256 % 256, data % 256]]
  if tracked then
    let r := i2cWriteTracked now tx s b
    if r.1 = Err.OK then (Err.OK, { r.2.1 with lastCommandUs := u32 (now * 1000) }, r.2.2)
    else (r.1, r.2.1, r.2.2)
  else
    let rb := b.next tx
    if rb.1.status = Err.OK then (Err.OK, { s with lastCommandUs := u32 (now * 1000) }, rb.2)
    else (rb.1.status, s, rb.2)

/-- SHT3x::_readOnly (SHT3x.cpp lines 1098-1110): dispatch the pure read to
the tracked wrapper (with or without the allow-no-data path). -/
def readOnly (now rxLen : Nat) (tracked allowNoData : Bool) (s : Driver) (b : Bus) :
    Err × List Nat × Driver × Bus :=
  if rxLen = 0 then (Err.INVALID_PARAM, [], s, b)
  else if tracked then
    if allowNoData then i2cWriteReadTrackedAllowNoData now 0 rxLen true s b
    else i2cWriteReadTracked now rxLen s b
  else
    let rb := b.next []
    (rb.1.status, rb.1.rx, s, rb.2)

/-- SHT3x::_readAfterCommand (SHT3x.cpp lines 1084-1096): idle gate
(modelled as elapsed) then the pure read. -/
def readAfterCommand (now rxLen : Nat) (tracked allowNoData : Bool) (s : Driver) (b : Bus) :
    Err × List Nat × Driver × Bus :=
  readOnly now rxLen tracked allowNoData s b

/-- SHT3x::_readStatusRaw (SHT3x.cpp lines 1220-1238): read-status command,
3-byte read, CRC check, big-endian word. -/
def readStatusRaw (now : Nat) (tracked : Bool) (s : Driver) (b : Bus) :
    Err × Nat × Driver × Bus :=
  let r := writeCommand now CMD_READ_STATUS tracked s b
  if r.1 ≠ Err.OK then (r.1, 0, r.2.1, r.2.2)
  else
    let r2 := readAfterCommand now 3 tracked false r.2.1 r.2.2
    if r2.1 ≠ Err.OK then (r2.1, 0, r2.2.2.1, r2.2.2.2)
    else
      let buf := r2.2.1
      if crc8 [byteAt buf 0, byteAt buf 1] ≠ byteAt buf 2 then
        (Err.CRC_MISMATCH, 0, r2.2.2.1, r2.2.2.2)
      else
        (Err.OK, byteAt buf 0 * 256 + byteAt buf 1, r2.2.2.1, r2.2.2.2)

/-- SHT3x::_readMeasurementRaw (SHT3x.cpp lines 1240-1257): 6-byte read,
two CRC checks, store the raw sample words into the driver (the C++ out
parameter is always the member _rawSample at the call sites embedded here). -/
def readMeasurementRaw (now : Nat) (tracked allowNoData : Bool) (s : Driver) (b : Bus) :
    Err × Driver × Bus :=
  let r := readAfterCommand now 6 tracked allowNoData s b
  if r.1 ≠ Err.OK then (r.1, r.2.2.1, r.2.2.2)
  else
    let buf := r.2.1
    let s := r.2.2.1
    let b := r.2.2.2
    if crc8 [byteAt buf 0, byteAt buf 1] ≠ byteAt buf 2 then (Err.CRC_MISMATCH, s, b)
    else if crc8 [byteAt buf 3, byteAt buf 4] ≠ byteAt buf 5 then (Err.CRC_MISMATCH, s, b)
    else
      (Err.OK, { s with rawTemperature := byteAt buf 0 * 256 + byteAt buf 1,
                        rawHumidity := byteAt buf 3 * 256 + byteAt buf 4 }, b)

/-- SHT3x::_fetchPeriodic (SHT3x.cpp lines 1259-1298): fetch-data command,
escalation of the allow-no-data window after notReadyTimeoutMs, the 6-byte
read, not-ready bookkeeping, and the fixed-point conversions on success. -/
def fetchPeriodic (now : Nat) (s : Driver) (b : Bus) : Err × Driver × Bus :=
  if s.periodicActive = false then (Err.INVALID_PARAM, s, b)
  else
    let r := writeCommand now CMD_FETCH_DATA true s b
    if r.1 ≠ Err.OK then (r.1, r.2.1, r.2.2)
    else
      let s := r.2.1
      let b := r.2.2
      let allowNoData := s.capReadHeaderNack
      let allowNoData :=
        if allowNoData = true ∧ 0 < s.notReadyTimeoutMs ∧ s.notReadyStartMs ≠ 0 ∧
            timeElapsed now (u32 (s.notReadyStartMs + s.notReadyTimeoutMs)) = true
        then false else allowNoData
      let r2 := readMeasurementRaw now true allowNoData s b
      let s := r2.2.1
      let b := r2.2.2
      if r2.1 = Err.MEASUREMENT_NOT_READY then
        let s := if s.notReadyStartMs = 0 then { s with notReadyStartMs := now } else s
        let s := { s with notReadyCount := satInc32 s.notReadyCount }
        (r2.1, s, b)
      else
        let s := { s with notReadyStartMs := 0, notReadyCount := 0 }
        if r2.1 ≠ Err.OK then (r2.1, s, b)
        else
          (Err.OK, { s with tempC_x100 := convertTemperatureC_x100 s.rawTemperature,
                            humidityPct_x100 := convertHumidityPct_x100 s.rawHumidity }, b)

/-- The missed-sample estimate in SHT3x::tick (SHT3x.cpp lines 187-196). -/
def missedUpdate (now : Nat) (s : Driver) : Driver :=
  if s.lastFetchMs ≠ 0 ∧ 0 < s.periodMs then
    let elapsed := u32sub now s.lastFetchMs
    if s.periodMs < elapsed then
      let missed := elapsed / s.periodMs
      if 0 < missed then { s with missedSamples := u32 (s.missedSamples + (missed - 1)) }
      else s
    else s
  else s

/-- Which branch a tick took: no pending work, gate not yet due, a completed
sample, or a failed I/O attempt.  The C++ tick returns void; this outcome
tag names the branch taken so the temporal claims can be stated. -/
inductive TickOutcome where
  | idle
  | notDue
  | fetched
  | failed (e : Err)
  deriving DecidableEq, Repr

/-- SHT3x::tick (SHT3x.cpp lines 150-203) with the branch taken made
explicit. -/
def tickAux (now : Nat) (s : Driver) (b : Bus) : TickOutcome × Driver × Bus :=
  if s.initialized = false ∨ s.measurementRequested = false then (TickOutcome.idle, s, b)
  else if s.mode = Mode.SINGLE_SHOT then
    if toInt32 (u32sub now s.measurementReadyMs) < 0 then (TickOutcome.notDue, s, b)
    else
      let r := readMeasurementRaw now true false s b
      if r.1 ≠ Err.OK then (TickOutcome.failed r.1, r.2.1, r.2.2)
      else
        let s := r.2.1
        (TickOutcome.fetched,
         { s with tempC_x100 := convertTemperatureC_x100 s.rawTemperature,
                  humidityPct_x100 := convertHumidityPct_x100 s.rawHumidity,
                  sampleTimestampMs := now, measurementReady := true,
                  measurementRequested := false }, r.2.2)
  else
    if toInt32 (u32sub now s.measurementReadyMs) < 0 then (TickOutcome.notDue, s, b)
    else
      let r := fetchPeriodic now s b
      if r.1 ≠ Err.OK then
        if r.1 = Err.MEASUREMENT_NOT_READY then
          (TickOutcome.failed r.1,
           { r.2.1 with measurementReadyMs := u32 (now + r.2.1.commandDelayMs) }, r.2.2)
        else (TickOutcome.failed r.1, r.2.1, r.2.2)
      else
        let s := missedUpdate now r.2.1
        (TickOutcome.fetched,
         { s with measurementReady := true, measurementRequested := false,
                  lastFetchMs := now, sampleTimestampMs := now }, r.2.2)

/-- SHT3x::tick as called by the host (outcome tag dropped). -/
def tick (now : Nat) (s : Driver) (b : Bus) : Driver × Bus :=
  (tickAux now s b).2

/-- SHT3x::_startSingleShot (SHT3x.cpp lines 1300-1312). -/
def startSingleShot (now : Nat) (s : Driver) (b : Bus) : Err × Driver × Bus :=
  if s.periodicActive = true then (Err.BUSY, s, b)
  else writeCommand now (commandForSingleShot s.cfgRepeatability s.cfgClockStretching) true s b

/-- SHT3x::requestMeasurement (SHT3x.cpp lines 329-374): trigger a
single-shot measurement, or schedule the next periodic/ART fetch. -/
def requestMeasurement (now : Nat) (s : Driver) (b : Bus) : Err × Driver × Bus :=
  if s.initialized = false then (Err.NOT_INITIALIZED, s, b)
  else if s.measurementRequested = true ∧ s.measurementReady = false then (Err.BUSY, s, b)
  else
    let s := { s with measurementReady := false }
    if s.mode = Mode.SINGLE_SHOT then
      let r := startSingleShot now s b
      if r.1 ≠ Err.OK then (r.1, r.2.1, r.2.2)
      else
        (Err.IN_PROGRESS,
         { r.2.1 with measurementRequested := true,
                      measurementReadyMs := u32 (now + estimateMeasurementTimeMs r.2.1) },
         r.2.2)
    else if s.mode = Mode.PERIODIC ∨ s.mode = Mode.ART then
      if s.periodicActive = false then (Err.INVALID_PARAM, s, b)
      else
        let readyMs := if s.lastFetchMs = 0
                       then u32 (s.periodicStartMs + estimateMeasurementTimeMs s)
                       else u32 (s.lastFetchMs + s.periodMs)
        let readyMs := if 0 ≤ toInt32 (u32sub now readyMs) then now else readyMs
        (Err.IN_PROGRESS,
         { s with measurementRequested := true, measurementReadyMs := readyMs }, b)
    else (Err.INVALID_PARAM, s, b)

/-- SHT3x::readStatus(uint16_t) (SHT3x.cpp lines 599-608): BUSY while the
periodic stream is active. -/
def readStatus (now : Nat) (s : Driver) (b : Bus) : Err × Nat × Driver × Bus :=
  if s.initialized = false then (Err.NOT_INITIALIZED, 0, s, b)
  else if s.periodicActive = true then (Err.BUSY, 0, s, b)
  else readStatusRaw now true s b

/-- SHT3x::clearStatus (SHT3x.cpp lines 628-637). -/
def clearStatus (now : Nat) (s : Driver) (b : Bus) : Err × Driver × Bus :=
  if s.initialized = false then (Err.NOT_INITIALIZED, s, b)
  else if s.periodicActive = true then (Err.BUSY, s, b)
  else writeCommand now CMD_CLEAR_STATUS true s b

/-- SHT3x::setHeater (SHT3x.cpp lines 639-648). -/
def setHeater (now : Nat) (enable : Bool) (s : Driver) (b : Bus) : Err × Driver × Bus :=
  if s.initialized = false then (Err.NOT_INITIALIZED, s, b)
  else if s.periodicActive = true then (Err.BUSY, s, b)
  else writeCommand now (if enable then CMD_HEATER_ENABLE else CMD_HEATER_DISABLE) true s b

/-- SHT3x::softReset (SHT3x.cpp lines 660-692): soft-reset command, 2 ms
settle (the bounded wait is modelled as completing), then reset the
measurement bookkeeping to the single-shot baseline. -/
def softReset (now : Nat) (s : Driver) (b : Bus) : Err × Driver × Bus :=
  if s.initialized = false then (Err.NOT_INITIALIZED, s, b)
  else if s.periodicActive = true then (Err.BUSY, s, b)
  else
    let r := writeCommand now CMD_SOFT_RESET true s b
    if r.1 ≠ Err.OK then (r.1, r.2.1, r.2.2)
    else
      (Err.OK,
       { r.2.1 with measurementRequested := false, measurementReady := false,
                    mode := Mode.SINGLE_SHOT, cfgMode := Mode.SINGLE_SHOT,
                    periodicActive := false, periodicStartMs := 0, lastFetchMs := 0,
                    periodMs := 0, sampleTimestampMs := 0, missedSamples := 0,
                    notReadyStartMs := 0, notReadyCount := 0 }, r.2.2)

/-- SHT3x::readSerialNumber (SHT3x.cpp lines 764-802): BUSY while periodic,
serial command by stretch mode, 6-byte read, two CRC checks, 32-bit id. -/
def readSerialNumber (now : Nat) (stretch : ClockStretching) (s : Driver) (b : Bus) :
    Err × Nat × Driver × Bus :=
  if s.initialized = false then (Err.NOT_INITIALIZED, 0, s, b)
  else if s.periodicActive = true then (Err.BUSY, 0, s, b)
  else
    let c := if stretch = ClockStretching.STRETCH_ENABLED then CMD_SERIAL_STRETCH
             else CMD_SERIAL_NO_STRETCH
    let r := writeCommand now c true s b
    if r.1 ≠ Err.OK then (r.1, 0, r.2.1, r.2.2)
    else
      let r2 := readAfterCommand now 6 true false r.2.1 r.2.2
      if r2.1 ≠ Err.OK then (r2.1, 0, r2.2.2.1, r2.2.2.2)
      else
        let buf := r2.2.1
        if crc8 [byteAt buf 0, byteAt buf 1] ≠ byteAt buf 2 then
          (Err.CRC_MISMATCH, 0, r2.2.2.1, r2.2.2.2)
        else if crc8 [byteAt buf 3, byteAt buf 4] ≠ byteAt buf 5 then
          (Err.CRC_MISMATCH, 0, r2.2.2.1, r2.2.2.2)
        else
          (Err.OK, (byteAt buf 0 * 256 + byteAt buf 1) * 65536 +
                   (byteAt buf 3 * 256 + byteAt buf 4), r2.2.2.1, r2.2.2.2)

/-- SHT3x::readAlertLimitRaw (SHT3x.cpp lines 804-834): BUSY while periodic,
alert read command, 3-byte read, CRC check, big-endian word. -/
def readAlertLimitRaw (now : Nat) (kind : AlertLimitKind) (s : Driver) (b : Bus) :
    Err × Nat × Driver × Bus :=
  if s.initialized = false then (Err.NOT_INITIALIZED, 0, s, b)
  else if s.periodicActive = true then (Err.BUSY, 0, s, b)
  else
    let r := writeCommand now (commandForAlertRead kind) true s b
    if r.1 ≠ Err.OK then (r.1, 0, r.2.1, r.2.2)
    else
      let r2 := readAfterCommand now 3 true false r.2.1 r.2.2
      if r2.1 ≠ Err.OK then (r2.1, 0, r2.2.2.1, r2.2.2.2)
      else
        let buf := r2.2.1
        if crc8 [byteAt buf 0, byteAt buf 1] ≠ byteAt buf 2 then
          (Err.CRC_MISMATCH, 0, r2.2.2.1, r2.2.2.2)
        else
          (Err.OK, byteAt buf 0 * 256 + byteAt buf 1, r2.2.2.1, r2.2.2.2)

/-- SHT3x::writeAlertLimitRaw (SHT3x.cpp lines 848-880): BUSY while
periodic, command with data word and CRC, status-register read back, then
the write-crc-error / command-error bit checks. -/
def writeAlertLimitRaw (now : Nat) (kind : AlertLimitKind) (value : Nat)
    (s : Driver) (b : Bus) : Err × Driver × Bus :=
  if s.initialized = false then (Err.NOT_INITIALIZED, s, b)
  else if s.periodicActive = true then (Err.BUSY, s, b)
  else
    let r := writeCommandWithData now (commandForAlertWrite kind) value true s b
    if r.1 ≠ Err.OK then (r.1, r.2.1, r.2.2)
    else
      let r2 := readStatusRaw now true r.2.1 r.2.2
      if r2.1 ≠ Err.OK then (r2.1, r2.2.2.1, r2.2.2.2)
      else
        let statusRaw := r2.2.1
        if statusRaw &&& 1 ≠ 0 then (Err.WRITE_CRC_ERROR, r2.2.2.1, r2.2.2.2)
        else if statusRaw &&& 2 ≠ 0 then (Err.COMMAND_FAILED, r2.2.2.1, r2.2.2.2)
        else (Err.OK, r2.2.2.1, r2.2.2.2)

/-- A freshly constructed driver with the Config.h defaults: state as after
the C++ object is value-initialized, before begin(). -/
def mkDriver : Driver :=
  { capReadHeaderNack := false, commandDelayMs := 1, notReadyTimeoutMs := 0,
    offlineThreshold := 5, cfgRepeatability := Repeatability.HIGH_REPEATABILITY,
    cfgClockStretching := ClockStretching.STRETCH_DISABLED,
    cfgPeriodicRate := PeriodicRate.MPS_1, cfgMode := Mode.SINGLE_SHOT,
    lowVdd := false, initialized := false, driverState := DriverState.UNINIT,
    lastOkMs := 0, lastErrorMs := 0, lastBusActivityMs := 0, lastError := Err.OK,
    consecutiveFailures := 0, totalFailures := 0, totalSuccess := 0,
    lastCommandUs := 0, measurementRequested := false, measurementReady := false,
    measurementReadyMs := 0, periodicStartMs := 0, lastFetchMs := 0, periodMs := 0,
    sampleTimestampMs := 0, missedSamples := 0, notReadyStartMs := 0,
    notReadyCount := 0, rawTemperature := 0, rawHumidity := 0, tempC_x100 := 0,
    humidityPct_x100 := 0, mode := Mode.SINGLE_SHOT, periodicActive := false }

/-- The state reset performed at the top of SHT3x::begin (SHT3x.cpp lines
68-95): health record, measurement bookkeeping and mode are cleared before
any I/O, with initialized false and DriverState UNINIT. -/
def beginResetHealth (s : Driver) : Driver :=
  { s with initialized := false, driverState := DriverState.UNINIT,
           lastOkMs := 0, lastErrorMs := 0, lastBusActivityMs := 0,
           lastError := Err.OK, consecutiveFailures := 0, totalFailures := 0,
           totalSuccess := 0, measurementRequested := false,
           measurementReady := false, measurementReadyMs := 0,
           periodicStartMs := 0, lastFetchMs := 0, periodMs := 0,
           sampleTimestampMs := 0, missedSamples := 0, notReadyStartMs := 0,
           notReadyCount := 0, mode := Mode.SINGLE_SHOT, periodicActive := false,
           lastCommandUs := 0 }

/-- The health-relevant shape of one public driver call, for the tracked
call-sequence invariant.  beginCall bundles the reset at the top of begin(),
the tracked pre-init transport returns made during begin (each a
timestamped Status), and whether begin completed (SHT3x.cpp lines 144-145
set initialized and READY only on full success).  tracked is any tracked
transport return through updateHealth while in the current state, and
endCall is SHT3x::end (SHT3x.cpp lines 205-208), which clears initialized
and DriverState but none of the counters. -/
inductive DriverCall where
  | beginCall (preRets : List (Nat × Err)) (ok : Bool)
  | tracked (now : Nat) (st : Err)
  | endCall
  deriving Repr

/-- Apply one public call to the driver state (health projection). -/
def stepCall (s : Driver) : DriverCall → Driver
  | DriverCall.beginCall preRets ok =>
    let s0 := beginResetHealth s
    let s1 := preRets.foldl (fun t p => (updateHealth p.1 p.2 t).2) s0
    if ok then { s1 with initialized := true, driverState := DriverState.READY } else s1
  | DriverCall.tracked now st => (updateHealth now st s).2
  | DriverCall.endCall => { s with initialized := false, driverState := DriverState.UNINIT }

/-- Run a sequence of public calls from a starting state. -/
def runCalls (s : Driver) (cs : List DriverCall) : Driver := cs.foldl stepCall s

/-- The health invariant that actually holds: UNINIT exactly tracks
not-initialized, and while initialized the zero-consecutive-failures flag
coincides with READY. -/
def HealthInv (s : Driver) : Prop :=
  (s.initialized = false → s.driverState = DriverState.UNINIT) ∧
  (s.initialized = true → (s.consecutiveFailures = 0 ↔ s.driverState = DriverState.READY))

/-- The fetch margin exactly as the specification and the Config.h comment
describe it: the configured periodicFetchMarginMs, or max(2 ms, period/20)
when the configured margin is 0.  (No implementation of the declared
SHT3x::_periodicFetchMarginMs exists in src/.) -/
def specPeriodicFetchMargin (cfgMarginMs periodMs : Nat) : Nat :=
  if cfgMarginMs = 0 then max 2 (periodMs / 20) else cfgMarginMs

/-- The ready_at_ms the specification claims for request_measurement in
periodic/ART mode: max(now, anchor + period_ms + fetch_margin). -/
def specRequestReadyMs (now anchor periodMs margin : Nat) : Nat :=
  max now (anchor + periodMs + margin)

/-- Cached sensor settings for restore-after-reset (SHT3x.h struct
CachedSettings): mode, repeatability, rate, stretching, heater flag, and
per-kind alert-limit validity and raw words. -/
structure CachedSettings where
  mode : Mode
  repeatability : Repeatability
  periodicRate : PeriodicRate
  clockStretching : ClockStretching
  heaterEnabled : Bool
  alertValid : AlertLimitKind → Bool
  alertRaw : AlertLimitKind → Nat

/-- The alert-limit kinds in slot order 0..3 (SHT3x.h enum AlertLimitKind). -/
def alertKinds : List AlertLimitKind :=
  [AlertLimitKind.HIGH_SET, AlertLimitKind.HIGH_CLEAR,
   AlertLimitKind.LOW_CLEAR, AlertLimitKind.LOW_SET]

/-- One step of the reset-and-restore procedure, for stating its order.
A writeAlertLimitVerified step stands for one alert-limit write immediately
followed by its status-register verification (SHT3x::writeAlertLimitRaw
performs both in one call). -/
inductive RestoreStep where
  | recoveryLadder
  | applyRepeatability (r : Repeatability)
  | applyClockStretching (c : ClockStretching)
  | applyPeriodicRate (p : PeriodicRate)
  | applyHeater (enabled : Bool)
  | writeAlertLimitVerified (k : AlertLimitKind) (raw : Nat)
  | startPeriodicMode (p : PeriodicRate) (r : Repeatability)
  | startArtMode
  | staySingleShot
  deriving DecidableEq, Repr

/-- The mode-restore step for a cached mode. -/
def modeRestoreStep (c : CachedSettings) : RestoreStep :=
  match c.mode with
  | Mode.PERIODIC => RestoreStep.startPeriodicMode c.periodicRate c.repeatability
  | Mode.ART => RestoreStep.startArtMode
  | Mode.SINGLE_SHOT => RestoreStep.staySingleShot

/-- Modelled from the spec: the body of SHT3x::resetAndRestore is absent
from src/ (SHT3x.h line 129 declares it and the host tests exercise it, but
src/SHT3x.cpp contains no definition).  Following the specification
(section 4.7), resetAndRestore performs the recovery ladder and then
reapplies the cached settings in the strict order repeatability, clock
stretching, periodic rate, heater, each valid alert limit (write plus
status verification), and finally the cached mode. -/
def resetAndRestorePlan (c : CachedSettings) : List RestoreStep :=
  RestoreStep.recoveryLadder ::
  RestoreStep.applyRepeatability c.repeatability ::
  RestoreStep.applyClockStretching c.clockStretching ::
  RestoreStep.applyPeriodicRate c.periodicRate ::
  RestoreStep.applyHeater c.heaterEnabled ::
  ((alertKinds.filter fun k => c.alertValid k).map
    fun k => RestoreStep.writeAlertLimitVerified k (c.alertRaw k)) ++
  [modeRestoreStep c]

/-- Equality of the control fields that steer tick gating; the tracked
transport wrappers and the fetch path only touch health, timing and sample
fields, never these. -/
def CtrlEq (s t : Driver) : Prop :=
  t.initialized = s.initialized ∧ t.measurementRequested = s.measurementRequested ∧
  t.measurementReadyMs = s.measurementReadyMs ∧ t.mode = s.mode ∧
  t.commandDelayMs = s.commandDelayMs

/-- An initialized driver in the READY state with default configuration. -/
def readyDriver : Driver :=
  { mkDriver with initialized := true, driverState := DriverState.READY }

/-- An initialized driver with the periodic stream active (for the BUSY
guard claims). -/
def readyDriverP : Driver :=
  { mkDriver with initialized := true, driverState := DriverState.READY,
                  mode := Mode.PERIODIC, periodicActive := true }

/-- An initialized driver that declares READ_HEADER_NACK. -/
def capDriver : Driver :=
  { mkDriver with capReadHeaderNack := true, initialized := true,
                  driverState := DriverState.READY }

/-- A bus whose next pure read fails with a read-header NACK. -/
def busNackRead : Bus :=
  { script := [{ status := Err.I2C_NACK_READ, rx := [] }], txLog := [] }

/-- A bus with an empty script: every call answers OK with no data. -/
def emptyBus : Bus := { script := [], txLog := [] }

/-- Scenario for the periodic scheduling claim: 1 Hz periodic stream,
started at 0, last fetch at 500 ms, default (0 = auto) fetch margin. -/
def c5State : Driver :=
  { mkDriver with initialized := true, driverState := DriverState.READY,
                  mode := Mode.PERIODIC, cfgMode := Mode.PERIODIC,
                  periodicActive := true, periodMs := 1000,
                  periodicStartMs := 0, lastFetchMs := 500 }

/-- Scenario for the tick idempotence claim: a due single-shot measurement. -/
def c6State : Driver :=
  { mkDriver with initialized := true, driverState := DriverState.READY,
                  measurementRequested := true, measurementReadyMs := 0 }

/-- A bus whose reads fail with I2C_ERROR twice. -/
def c6Bus : Bus :=
  { script := [{ status := Err.I2C_ERROR, rx := [] },
               { status := Err.I2C_ERROR, rx := [] }], txLog := [] }

/-- A bus delivering one successful 6-byte measurement read with valid CRCs
(raw words 0x0000, CRC 0x81 each, the seed-suite vector). -/
def c6OkBus : Bus :=
  { script := [{ status := Err.OK, rx := [0, 0, 129, 0, 0, 129] }], txLog := [] }

/-- The call sequence refuting the unrestricted health invariant: a
successful begin, one tracked failure, then end(). -/
def c4Calls : List DriverCall :=
  [DriverCall.beginCall [] true, DriverCall.tracked 5 Err.I2C_ERROR, DriverCall.endCall]

/-- A bus scripting a successful alert-limit write: command write OK,
status-command write OK, then a status read returning the word raw with a
valid CRC. -/
def statusBus (raw : Nat) : Bus :=
  { script := [{ status := Err.OK, rx := [] }, { status := Err.OK, rx := [] },
               { status := Err.OK, rx := [raw / 256, raw % 256, crc8 [raw / 256, raw % 256]] }],
    txLog := [] }

/-- A concrete settings cache (periodic 2 Hz, medium repeatability, heater
on, one valid alert limit) for the restore-order witness. -/
def c8Cache : CachedSettings :=
  { mode := Mode.PERIODIC, repeatability := Repeatability.MEDIUM_REPEATABILITY,
    periodicRate := PeriodicRate.MPS_2,
    clockStretching := ClockStretching.STRETCH_DISABLED, heaterEnabled := true,
    alertValid := fun k => match k with
      | AlertLimitKind.HIGH_SET => true
      | _ => false,
    alertRaw := fun k => match k with
      | AlertLimitKind.HIGH_SET => 8738
      | _ => 0 }

theorem nat_div_double_succ (k m : Nat) (hm : 0 < m) : (2 * k + 1) / (2 * m) = k / m := by
  have h0 : k % m < m := Nat.mod_lt _ hm
  have h1 : 2 * k + 1 = (2 * (k % m) + 1) + (2 * m) * (k / m) := by
    have h2 := Nat.div_add_mod k m
    have h3 : (2 * m) * (k / m) = 2 * (m * (k / m)) := by ring
    omega
  rw [h1, Nat.add_mul_div_left _ _ (by omega : 0 < 2 * m), Nat.div_eq_of_lt (by omega)]
  omega

theorem add_half_div_eq_roundHalfUp (p : Nat) : (p + 32767) / 65535 = roundHalfUpDiv p 65535 := by
  unfold roundHalfUpDiv
  have h2 : 2 * p + 65535 = 2 * (p + 32767) + 1 := by ring
  rw [h2, nat_div_double_succ (p + 32767) 65535 (by omega)]

theorem updateHealth_fst (now : Nat) (st : Err) (s : Driver) :
    (updateHealth now st s).1 = st := by
  unfold updateHealth recordBusActivity
  by_cases hi : s.initialized = false <;> by_cases ho : st = Err.OK <;> simp [hi, ho]

theorem updateHealth_initialized_eq (now : Nat) (st : Err) (s : Driver) :
    (updateHealth now st s).2.initialized = s.initialized := by
  unfold updateHealth recordBusActivity
  by_cases hi : s.initialized = false <;> by_cases ho : st = Err.OK <;> simp [hi, ho]

theorem updateHealth_preInit (now : Nat) (st : Err) (s : Driver) (h : s.initialized = false) :
    (updateHealth now st s).2.consecutiveFailures = s.consecutiveFailures ∧
    (updateHealth now st s).2.driverState = s.driverState := by
  unfold updateHealth recordBusActivity
  by_cases ho : st = Err.OK <;> simp [h, ho]

theorem satInc8_ne_zero (n : Nat) : satInc8 n ≠ 0 := by
  unfold satInc8 U8MAX
  split_ifs <;> omega

theorem updateHealth_healthInv (now : Nat) (st : Err) (s : Driver) (h : HealthInv s) :
    HealthInv (updateHealth now st s).2 := by
  cases hi : s.initialized with
  | false =>
    have hu := updateHealth_preInit now st s hi
    have hii := updateHealth_initialized_eq now st s
    unfold HealthInv at h ⊢
    rw [hii, hu.1, hu.2, hi]
    exact ⟨fun _ => h.1 hi, fun hfalse => by simp at hfalse⟩
  | true =>
    have hii := updateHealth_initialized_eq now st s
    unfold HealthInv
    rw [hii, hi]
    refine ⟨fun hfalse => by simp at hfalse, fun _ => ?_⟩
    unfold updateHealth recordBusActivity
    by_cases ho : st = Err.OK
    · simp [hi, ho]
    · simp only [hi, ho, Bool.true_eq_false, if_false, if_neg ho]
      apply iff_of_false
      · exact satInc8_ne_zero s.consecutiveFailures
      · split_ifs <;> simp

theorem preInit_fold (l : List (Nat × Err)) (t : Driver) (h : t.initialized = false) :
    (l.foldl (fun u p => (updateHealth p.1 p.2 u).2) t).initialized = false ∧
    (l.foldl (fun u p => (updateHealth p.1 p.2 u).2) t).consecutiveFailures = t.consecutiveFailures ∧
    (l.foldl (fun u p => (updateHealth p.1 p.2 u).2) t).driverState = t.driverState := by
  induction l generalizing t with
  | nil => exact ⟨h, rfl, rfl⟩
  | cons hd tl ih =>
    simp only [List.foldl_cons]
    have h1 : ((updateHealth hd.1 hd.2 t).2).initialized = false := by
      rw [updateHealth_initialized_eq]; exact h
    have h2 := updateHealth_preInit hd.1 hd.2 t h
    obtain ⟨a, b, c⟩ := ih ((updateHealth hd.1 hd.2 t).2) h1
    exact ⟨a, by rw [b, h2.1], by rw [c, h2.2]⟩

theorem stepCall_healthInv (s : Driver) (c : DriverCall) (h : HealthInv s) :
    HealthInv (stepCall s c) := by
  cases c with
  | beginCall preRets ok =>
    unfold stepCall
    have h0 : (beginResetHealth s).initialized = false := rfl
    obtain ⟨a, b, cc⟩ := preInit_fold preRets (beginResetHealth s) h0
    cases ok with
    | false =>
      simp only [Bool.false_eq_true, if_false]
      unfold HealthInv
      refine ⟨fun _ => ?_, fun hinit => ?_⟩
      · rw [cc]; rfl
      · rw [a] at hinit; simp at hinit
    | true =>
      simp only [if_true]
      unfold HealthInv
      refine ⟨fun hfalse => by simp at hfalse, fun _ => ?_⟩
      simp only
      rw [b]
      have hb : (beginResetHealth s).consecutiveFailures = 0 := rfl
      rw [hb]
      simp
  | tracked now st => exact updateHealth_healthInv now st s h
  | endCall =>
    unfold stepCall HealthInv
    exact ⟨fun _ => rfl, fun hinit => by simp at hinit⟩

theorem foldl_healthInv (cs : List DriverCall) (s : Driver) (h : HealthInv s) :
    HealthInv (cs.foldl stepCall s) := by
  induction cs generalizing s with
  | nil => exact h
  | cons hd tl ih => exact ih (stepCall s hd) (stepCall_healthInv s hd h)

theorem ctrlEq_refl (s : Driver) : CtrlEq s s := ⟨rfl, rfl, rfl, rfl, rfl⟩

theorem ctrlEq_trans {a b c : Driver} (h1 : CtrlEq a b) (h2 : CtrlEq b c) : CtrlEq a c := by
  obtain ⟨x1, x2, x3, x4, x5⟩ := h1
  obtain ⟨y1, y2, y3, y4, y5⟩ := h2
  exact ⟨y1.trans x1, y2.trans x2, y3.trans x3, y4.trans x4, y5.trans x5⟩

theorem ctrlEq_updateHealth (now : Nat) (st : Err) (s : Driver) :
    CtrlEq s (updateHealth now st s).2 := by
  unfold CtrlEq updateHealth recordBusActivity
  by_cases hi : s.initialized = false <;> by_cases ho : st = Err.OK <;> simp [hi, ho]

theorem ctrlEq_recordBusActivity (now : Nat) (s : Driver) :
    CtrlEq s (recordBusActivity now s) := ctrlEq_refl s

theorem ctrlEq_i2cWriteTracked (now : Nat) (tx : List Nat) (s : Driver) (b : Bus) :
    CtrlEq s (i2cWriteTracked now tx s b).2.1 := by
  unfold i2cWriteTracked
  dsimp only
  split_ifs with h
  · exact ctrlEq_refl s
  · exact ctrlEq_updateHealth now _ s

theorem ctrlEq_i2cWriteReadTracked (now rxLen : Nat) (s : Driver) (b : Bus) :
    CtrlEq s (i2cWriteReadTracked now rxLen s b).2.2.1 := by
  unfold i2cWriteReadTracked
  dsimp only
  split_ifs with h
  · exact ctrlEq_refl s
  · exact ctrlEq_updateHealth now _ s

theorem ctrlEq_i2cWriteReadTrackedAllowNoData (now txLen rxLen : Nat) (an : Bool)
    (s : Driver) (b : Bus) :
    CtrlEq s (i2cWriteReadTrackedAllowNoData now txLen rxLen an s b).2.2.1 := by
  unfold i2cWriteReadTrackedAllowNoData
  dsimp only
  split_ifs with h1 h2
  · exact ctrlEq_refl s
  · exact ctrlEq_recordBusActivity now s
  · exact ctrlEq_updateHealth now _ s

theorem ctrlEq_writeCommand (now c : Nat) (tr : Bool) (s : Driver) (b : Bus) :
    CtrlEq s (writeCommand now c tr s b).2.1 := by
  unfold writeCommand
  dsimp only
  have h1 := ctrlEq_i2cWriteTracked now [c / 256 % 256, c % 256] s b
  split_ifs with h2 h3 h4
  · exact h1
  · exact h1
  · exact ctrlEq_refl s
  · exact ctrlEq_refl s

theorem ctrlEq_readOnly (now rxLen : Nat) (tr an : Bool) (s : Driver) (b : Bus) :
    CtrlEq s (readOnly now rxLen tr an s b).2.2.1 := by
  unfold readOnly
  dsimp only
  split_ifs with h1 h2 h3
  · exact ctrlEq_refl s
  · exact ctrlEq_i2cWriteReadTrackedAllowNoData now 0 rxLen true s b
  · exact ctrlEq_i2cWriteReadTracked now rxLen s b
  · exact ctrlEq_refl s

theorem ctrlEq_readAfterCommand (now rxLen : Nat) (tr an : Bool) (s : Driver) (b : Bus) :
    CtrlEq s (readAfterCommand now rxLen tr an s b).2.2.1 := by
  unfold readAfterCommand
  exact ctrlEq_readOnly now rxLen tr an s b

theorem ctrlEq_readMeasurementRaw (now : Nat) (tr an : Bool) (s : Driver) (b : Bus) :
    CtrlEq s (readMeasurementRaw now tr an s b).2.1 := by
  unfold readMeasurementRaw
  dsimp only
  have h1 := ctrlEq_readAfterCommand now 6 tr an s b
  split_ifs with h2 h3 h4
  · exact h1
  · exact h1
  · exact h1
  · exact h1

theorem ctrlEq_fetchPeriodic (now : Nat) (s : Driver) (b : Bus) :
    CtrlEq s (fetchPeriodic now s b).2.1 := by
  unfold fetchPeriodic
  by_cases h1 : s.periodicActive = false
  · rw [if_pos h1]
    exact ctrlEq_refl s
  · rw [if_neg h1]
    rcases hw2 : writeCommand now CMD_FETCH_DATA true s b with ⟨stw, sw, bw⟩
    have hw : CtrlEq s sw := by
      have h := ctrlEq_writeCommand now CMD_FETCH_DATA true s b
      rw [hw2] at h
      exact h
    dsimp only
    by_cases h2 : stw ≠ Err.OK
    · rw [if_pos h2]
      exact hw
    · rw [if_neg h2]
      have hr : ∀ (an : Bool) (str : Err) (sr : Driver) (br : Bus),
          readMeasurementRaw now true an sw bw = (str, sr, br) → CtrlEq s sr := by
        intro an str sr br heq
        have h := ctrlEq_readMeasurementRaw now true an sw bw
        rw [heq] at h
        exact ctrlEq_trans hw h
      by_cases h3 : sw.capReadHeaderNack = true ∧ 0 < sw.notReadyTimeoutMs ∧
          sw.notReadyStartMs ≠ 0 ∧
          timeElapsed now (u32 (sw.notReadyStartMs + sw.notReadyTimeoutMs)) = true
      · rw [if_pos h3]
        rcases hr2 : readMeasurementRaw now true false sw bw with ⟨str, sr, br⟩
        have hsr := hr false str sr br hr2
        dsimp only
        split_ifs <;> exact hsr
      · rw [if_neg h3]
        rcases hr2 : readMeasurementRaw now true sw.capReadHeaderNack sw bw with ⟨str, sr, br⟩
        have hsr := hr sw.capReadHeaderNack str sr br hr2
        dsimp only
        split_ifs <;> exact hsr

theorem i2cWriteReadTracked_fst (now rxLen : Nat) (s : Driver) (b : Bus) :
    (i2cWriteReadTracked now rxLen s b).1 = (Bus.next [] b).1.status := by
  unfold i2cWriteReadTracked
  dsimp only
  split_ifs with h
  · rfl
  · exact updateHealth_fst now _ s

theorem busNext_status_legal (tx : List Nat) (b : Bus) (hwf : Bus.WF b) :
    TransportLegal (Bus.next tx b).1.status := by
  unfold Bus.next
  cases hsc : b.script with
  | nil =>
    dsimp only
    left
    rfl
  | cons r rest =>
    dsimp only
    exact hwf r (by rw [hsc]; exact List.mem_cons_self r rest)

theorem transportLegal_ne_notReady (e : Err) (h : TransportLegal e) :
    e ≠ Err.MEASUREMENT_NOT_READY := by
  unfold TransportLegal at h
  rcases h with h | h | h | h | h | h | h | h <;> subst h <;> simp

theorem readMeasurementRaw_no_notReady (now : Nat) (s : Driver) (b : Bus) (hwf : Bus.WF b) :
    (readMeasurementRaw now true false s b).1 ≠ Err.MEASUREMENT_NOT_READY := by
  have hne := transportLegal_ne_notReady _ (busNext_status_legal [] b hwf)
  have hfst := i2cWriteReadTracked_fst now 6 s b
  unfold readMeasurementRaw readAfterCommand readOnly
  dsimp only
  rw [if_neg (by decide : ¬((6 : Nat) = 0)), if_pos rfl, if_neg (by decide : ¬(false = true))]
  split_ifs with h1 h2 h3
  · rw [hfst]; exact hne
  · simp
  · simp
  · simp

theorem gate_not_due (now cd : Nat) (h1 : 1 ≤ cd) (h2 : cd ≤ 65535) :
    toInt32 (u32sub now (u32 (now + cd))) < 0 := by
  unfold toInt32 u32sub u32 U32MOD I32HALF
  split_ifs with h <;> omega

theorem tickAux_noReq (now : Nat) (s : Driver) (b : Bus) (h : s.measurementRequested = false) :
    tickAux now s b = (TickOutcome.idle, s, b) := by
  unfold tickAux
  rw [if_pos (Or.inr h)]

theorem crc8bit_lt (x : Nat) : crc8bit x < 256 := by
  unfold crc8bit
  split_ifs <;> omega

theorem crc8byte_lt (c x : Nat) : crc8byte c x < 256 := by
  unfold crc8byte
  rw [show (8 : Nat) = 7 + 1 from rfl, Function.iterate_succ_apply']
  exact crc8bit_lt _

theorem crc8_pair_lt (a b : Nat) : crc8 [a, b] < 256 := by
  unfold crc8
  simp only [List.foldl_cons, List.foldl_nil]
  exact crc8byte_lt _ _

theorem i2cWriteTracked_ok (now : Nat) (tx : List Nat) (s : Driver)
    (rest : List BusResponse) (L : List (List Nat)) :
    i2cWriteTracked now tx s { script := { status := Err.OK, rx := [] } :: rest, txLog := L } =
      (Err.OK, (updateHealth now Err.OK s).2, { script := rest, txLog := L ++ [tx] }) := by
  unfold i2cWriteTracked Bus.next
  dsimp only
  rw [if_neg (by simp)]
  rw [updateHealth_fst]

theorem writeCommand_ok (now c : Nat) (s : Driver)
    (rest : List BusResponse) (L : List (List Nat)) :
    writeCommand now c true s { script := { status := Err.OK, rx := [] } :: rest, txLog := L } =
      (Err.OK, { (updateHealth now Err.OK s).2 with lastCommandUs := u32 (now * 1000) },
       { script := rest, txLog := L ++ [[c / 256 % 256, c % 256]] }) := by
  unfold writeCommand
  dsimp only
  rw [i2cWriteTracked_ok]
  rfl

theorem writeCommandWithData_ok (now c d : Nat) (s : Driver)
    (rest : List BusResponse) (L : List (List Nat)) :
    writeCommandWithData now c d true s
        { script := { status := Err.OK, rx := [] } :: rest, txLog := L } =
      (Err.OK, { (updateHealth now Err.OK s).2 with lastCommandUs := u32 (now * 1000) },
       { script := rest,
         txLog := L ++ [[c / 256 % 256, c % 256, d / 256 % 256, d % 256,
                         crc8 [d / 256 % 256, d % 256]]] }) := by
  unfold writeCommandWithData
  dsimp only
  rw [i2cWriteTracked_ok]
  rfl

theorem i2cWriteReadTracked_ok (now rxLen : Nat) (s : Driver) (rx : List Nat)
    (rest : List BusResponse) (L : List (List Nat)) :
    i2cWriteReadTracked now rxLen s
        { script := { status := Err.OK, rx := rx } :: rest, txLog := L } =
      (Err.OK, rx, (updateHealth now Err.OK s).2, { script := rest, txLog := L ++ [[]] }) := by
  unfold i2cWriteReadTracked Bus.next
  dsimp only
  rw [if_neg (by simp)]
  rw [updateHealth_fst]

theorem readStatusRaw_ok (now : Nat) (s : Driver) (x y z : Nat)
    (rest : List BusResponse) (L : List (List Nat)) :
    readStatusRaw now true s
        { script := { status := Err.OK, rx := [] } :: { status := Err.OK, rx := [x, y, z] } :: rest,
          txLog := L } =
      (if crc8 [x % 256, y % 256] ≠ z % 256 then
        (Err.CRC_MISMATCH, 0,
         (updateHealth now Err.OK
           { (updateHealth now Err.OK s).2 with lastCommandUs := u32 (now * 1000) }).2,
         { script := rest,
           txLog := L ++ [[CMD_READ_STATUS / 256 % 256, CMD_READ_STATUS % 256]] ++ [[]] })
       else
        (Err.OK, x % 256 * 256 + y % 256,
         (updateHealth now Err.OK
           { (updateHealth now Err.OK s).2 with lastCommandUs := u32 (now * 1000) }).2,
         { script := rest,
           txLog := L ++ [[CMD_READ_STATUS / 256 % 256, CMD_READ_STATUS % 256]] ++ [[]] })) := by
  unfold readStatusRaw
  dsimp only
  rw [writeCommand_ok]
  dsimp only
  rw [if_neg (by simp)]
  unfold readAfterCommand readOnly
  dsimp only
  rw [if_neg (by decide : ¬((3 : Nat) = 0)), if_pos rfl, if_neg (by decide : ¬(false = true))]
  rw [i2cWriteReadTracked_ok]
  dsimp only
  rw [if_neg (by simp : ¬(Err.OK ≠ Err.OK))]
  unfold byteAt
  simp only [List.getD_cons_zero, List.getD_cons_succ]

/-- Claim C1 (code divergence): the claim says that a tracked read
returning I2C_NACK_READ without the READ_HEADER_NACK capability is
remapped to I2C_ERROR before the health update.  The shipped
SHT3x::_i2cWriteReadTrackedAllowNoData performs no such remap: at the
failing input (initialized driver, empty capability set, allow-no-data
pure read of 6 bytes, transport answers I2C_NACK_READ) the call returns
I2C_NACK_READ and records last_error = I2C_NACK_READ, not I2C_ERROR. -/
theorem claim_C1_no_remap :
    (i2cWriteReadTrackedAllowNoData 50 0 6 true readyDriver busNackRead).1 = Err.I2C_NACK_READ ∧
    (i2cWriteReadTrackedAllowNoData 50 0 6 true readyDriver busNackRead).2.2.1.lastError =
      Err.I2C_NACK_READ ∧
    (i2cWriteReadTrackedAllowNoData 50 0 6 true readyDriver busNackRead).2.2.1.lastError ≠
      Err.I2C_ERROR ∧
    (i2cWriteReadTrackedAllowNoData 50 0 6 true readyDriver busNackRead).2.2.1.consecutiveFailures = 1 ∧
    (i2cWriteReadTrackedAllowNoData 50 0 6 true readyDriver busNackRead).2.2.1.driverState =
      DriverState.DEGRADED ∧
    readyDriver.capReadHeaderNack = false := by
  decide

/-- Claim C2: a tracked pure read (tx length 0, rx length positive) issued
with allow-no-data, with READ_HEADER_NACK declared and the transport
returning I2C_NACK_READ, yields MEASUREMENT_NOT_READY, updates
last_bus_activity_ms to now, and leaves every other driver field - in
particular consecutive_failures, total_failures, total_success and
DriverState - unchanged. -/
theorem claim_C2_expected_nack (now txLen rxLen : Nat) (s : Driver) (rx : List Nat)
    (rest : List BusResponse) (log : List (List Nat))
    (hcap : s.capReadHeaderNack = true) (htx : txLen = 0) (hrx : 0 < rxLen) :
    (i2cWriteReadTrackedAllowNoData now txLen rxLen true s
        { script := { status := Err.I2C_NACK_READ, rx := rx } :: rest, txLog := log }).1 =
      Err.MEASUREMENT_NOT_READY ∧
    (i2cWriteReadTrackedAllowNoData now txLen rxLen true s
        { script := { status := Err.I2C_NACK_READ, rx := rx } :: rest, txLog := log }).2.2.1 =
      { s with lastBusActivityMs := now } := by
  subst htx
  unfold i2cWriteReadTrackedAllowNoData Bus.next recordBusActivity
  simp [hcap, hrx]

/-- Witness for claim C2 at a concrete capability-declaring driver. -/
theorem claim_C2_expected_nack_witness :
    capDriver.capReadHeaderNack = true ∧ (0 : Nat) = 0 ∧ (0 : Nat) < 6 ∧
    (i2cWriteReadTrackedAllowNoData 123 0 6 true capDriver
        { script := [{ status := Err.I2C_NACK_READ, rx := [] }], txLog := [] }).1 =
      Err.MEASUREMENT_NOT_READY ∧
    (i2cWriteReadTrackedAllowNoData 123 0 6 true capDriver
        { script := [{ status := Err.I2C_NACK_READ, rx := [] }], txLog := [] }).2.2.1 =
      { capDriver with lastBusActivityMs := 123 } := by
  have h := claim_C2_expected_nack 123 0 6 capDriver [] [] [] (by decide) rfl (by decide)
  exact ⟨by decide, rfl, by decide, h.1, h.2⟩

/-- Claim C3: the health tracker.  While initialized, a tracked success
sets last_ok_ms, increments total_success saturating, clears
consecutive_failures and moves to READY; a tracked failure records the
error, increments total_failures and consecutive_failures saturating, and
moves to OFFLINE when consecutive_failures reaches offline_threshold, else
DEGRADED.  Before initialization only the timestamps are updated and the
counters and DriverState stay untouched. -/
theorem claim_C3_updateHealth (now : Nat) (st : Err) (s : Driver) :
    ((updateHealth now st s).1 = st) ∧
    (s.initialized = true → st = Err.OK →
      (updateHealth now st s).2.lastOkMs = now ∧
      (updateHealth now st s).2.totalSuccess = satInc32 s.totalSuccess ∧
      (updateHealth now st s).2.consecutiveFailures = 0 ∧
      (updateHealth now st s).2.driverState = DriverState.READY) ∧
    (s.initialized = true → st ≠ Err.OK →
      (updateHealth now st s).2.lastError = st ∧
      (updateHealth now st s).2.lastErrorMs = now ∧
      (updateHealth now st s).2.totalFailures = satInc32 s.totalFailures ∧
      (updateHealth now st s).2.consecutiveFailures = satInc8 s.consecutiveFailures ∧
      (updateHealth now st s).2.driverState =
        (if s.offlineThreshold ≤ satInc8 s.consecutiveFailures then DriverState.OFFLINE
         else DriverState.DEGRADED)) ∧
    (s.initialized = false →
      (updateHealth now st s).2.driverState = s.driverState ∧
      (updateHealth now st s).2.consecutiveFailures = s.consecutiveFailures ∧
      (updateHealth now st s).2.totalFailures = s.totalFailures ∧
      (updateHealth now st s).2.totalSuccess = s.totalSuccess ∧
      (st = Err.OK → (updateHealth now st s).2.lastOkMs = now) ∧
      (st ≠ Err.OK → (updateHealth now st s).2.lastErrorMs = now)) := by
  unfold updateHealth recordBusActivity
  by_cases hi : s.initialized = false <;> by_cases ho : st = Err.OK <;> simp_all

/-- Witness for claim C3: a tracked I2C_TIMEOUT on a READY driver with
offline threshold 5 increments the failure counter and degrades. -/
theorem claim_C3_updateHealth_witness :
    readyDriver.initialized = true ∧ Err.I2C_TIMEOUT ≠ Err.OK ∧
    (updateHealth 7 Err.I2C_TIMEOUT readyDriver).2.consecutiveFailures =
      satInc8 readyDriver.consecutiveFailures ∧
    (updateHealth 7 Err.I2C_TIMEOUT readyDriver).2.driverState = DriverState.DEGRADED := by
  have h := (claim_C3_updateHealth 7 Err.I2C_TIMEOUT readyDriver).2.2.1 (by decide) (by decide)
  refine ⟨by decide, by decide, h.2.2.2.1, ?_⟩
  rw [h.2.2.2.2]
  decide

/-- Claim C4 counterexample: after begin (success), one tracked failure and
end(), the driver is UNINIT while consecutive_failures is 1, so
consecutive_failures == 0 does NOT hold iff DriverState is UNINIT or READY:
end() clears the state but not the counters. -/
theorem claim_C4_counterexample :
    ¬((runCalls mkDriver c4Calls).consecutiveFailures = 0 ↔
      ((runCalls mkDriver c4Calls).driverState = DriverState.UNINIT ∨
       (runCalls mkDriver c4Calls).driverState = DriverState.READY)) := by
  decide

/-- Claim C4 as amended: after any sequence of public driver calls,
DriverState is UNINIT whenever the driver is not initialized, and while it
is initialized, consecutive_failures == 0 holds iff DriverState is READY.
The original biconditional with UNINIT fails only after end() following a
failure, because end() does not clear the counters. -/
theorem claim_C4_amended (cs : List DriverCall) : HealthInv (runCalls mkDriver cs) := by
  unfold runCalls
  refine foldl_healthInv cs mkDriver ⟨fun _ => rfl, fun hinit => ?_⟩
  simp [mkDriver] at hinit

/-- Claim C5 (code divergence): in an active 1 Hz periodic stream with a
fetch recorded at 500 ms and the configured margin 0 (auto), the claim
schedules ready_at_ms = max(600, 500 + 1000 + max(2, 1000/20)) = 1550,
but requestMeasurement schedules last_fetch + period = 1500 and never
consults the fetch margin; the periodic branch also performs no bus I/O. -/
theorem claim_C5_no_margin :
    (requestMeasurement 600 c5State emptyBus).2.1.measurementReadyMs = 1500 ∧
    specRequestReadyMs 600 c5State.lastFetchMs c5State.periodMs
        (specPeriodicFetchMargin 0 c5State.periodMs) = 1550 ∧
    (1500 : Nat) ≠ 1550 ∧
    (requestMeasurement 600 c5State emptyBus).1 = Err.IN_PROGRESS ∧
    (requestMeasurement 600 c5State emptyBus).2.2 = emptyBus := by
  decide

/-- Claim C6 counterexample: a due single-shot tick whose read fails with
I2C_ERROR leaves the request pending and due, so a second tick at the same
now invokes the transport again (a second bus transaction). -/
theorem claim_C6_counterexample :
    ((tick 100 c6State c6Bus).2).calls = 1 ∧
    ((tick 100 (tick 100 c6State c6Bus).1 (tick 100 c6State c6Bus).2).2).calls = 2 := by
  decide

/-- Claim C6 as amended: two successive ticks with now unchanged drive no
bus I/O in the second call provided the first tick did not fail with a
real error - that is, when it did nothing (uninitialized, no pending
request, or not yet due), completed a sample, or returned
MEASUREMENT_NOT_READY (with command_delay_ms at least 1 ms, as begin
enforces, and a transport honouring the callback contract).  After a real
failure the request stays due and the next tick retries the bus I/O. -/
theorem claim_C6_amended (now : Nat) (s : Driver) (b : Bus)
    (hwf : Bus.WF b) (hcd1 : 1 ≤ s.commandDelayMs) (hcd2 : s.commandDelayMs ≤ 65535)
    (hout : ∀ e, (tickAux now s b).1 = TickOutcome.failed e → e = Err.MEASUREMENT_NOT_READY) :
    (tick now (tick now s b).1 (tick now s b).2).2 = (tick now s b).2 := by
  by_cases hC0 : s.initialized = false ∨ s.measurementRequested = false
  · have ht : tickAux now s b = (TickOutcome.idle, s, b) := by
      unfold tickAux
      rw [if_pos hC0]
    unfold tick
    rw [ht]
    dsimp only
    rw [ht]
  · have hInit : s.initialized = true := by
      cases hb : s.initialized with
      | false => exact absurd (Or.inl hb) hC0
      | true => rfl
    have hReq : s.measurementRequested = true := by
      cases hb : s.measurementRequested with
      | false => exact absurd (Or.inr hb) hC0
      | true => rfl
    by_cases hM : s.mode = Mode.SINGLE_SHOT
    · by_cases hGate : toInt32 (u32sub now s.measurementReadyMs) < 0
      · have ht : tickAux now s b = (TickOutcome.notDue, s, b) := by
          unfold tickAux
          rw [if_neg hC0, if_pos hM, if_pos hGate]
        unfold tick
        rw [ht]
        dsimp only
        rw [ht]
      · rcases hr : readMeasurementRaw now true false s b with ⟨st, s2, b2⟩
        by_cases hst : st = Err.OK
        · have hreq2 : ((tickAux now s b).2.1).measurementRequested = false := by
            unfold tickAux
            rw [if_neg hC0, if_pos hM, if_neg hGate]
            dsimp only
            rw [hr]
            simp [hst]
          unfold tick
          rw [tickAux_noReq now ((tickAux now s b).2.1) ((tickAux now s b).2.2) hreq2]
        · have hfail : (tickAux now s b).1 = TickOutcome.failed st := by
            unfold tickAux
            rw [if_neg hC0, if_pos hM, if_neg hGate]
            dsimp only
            rw [hr]
            simp [hst]
          have hcontra := hout st hfail
          have hnr : st ≠ Err.MEASUREMENT_NOT_READY := by
            have h := readMeasurementRaw_no_notReady now s b hwf
            rw [hr] at h
            exact h
          exact absurd hcontra hnr
    · by_cases hGate : toInt32 (u32sub now s.measurementReadyMs) < 0
      · have ht : tickAux now s b = (TickOutcome.notDue, s, b) := by
          unfold tickAux
          rw [if_neg hC0, if_neg hM, if_pos hGate]
        unfold tick
        rw [ht]
        dsimp only
        rw [ht]
      · rcases hf : fetchPeriodic now s b with ⟨st, s2, b2⟩
        have hctrl : CtrlEq s s2 := by
          have h := ctrlEq_fetchPeriodic now s b
          rw [hf] at h
          exact h
        by_cases hst : st = Err.OK
        · have hreq2 : ((tickAux now s b).2.1).measurementRequested = false := by
            unfold tickAux
            rw [if_neg hC0, if_neg hM, if_neg hGate]
            dsimp only
            rw [hf]
            simp [hst]
          unfold tick
          rw [tickAux_noReq now ((tickAux now s b).2.1) ((tickAux now s b).2.2) hreq2]
        · by_cases hnotr : st = Err.MEASUREMENT_NOT_READY
          · have ht : tickAux now s b = (TickOutcome.failed st, { s2 with measurementReadyMs := u32 (now + s2.commandDelayMs) }, b2) := by
              unfold tickAux
              rw [if_neg hC0, if_neg hM, if_neg hGate]
              dsimp only
              rw [hf]
              simp [hst, hnotr]
            have hga : ¬(({ s2 with measurementReadyMs := u32 (now + s2.commandDelayMs) } : Driver).initialized = false ∨ ({ s2 with measurementReadyMs := u32 (now + s2.commandDelayMs) } : Driver).measurementRequested = false) := by
              intro hor
              rcases hor with h1 | h1
              · have h2 : s2.initialized = false := h1
                rw [hctrl.1, hInit] at h2
                simp at h2
              · have h2 : s2.measurementRequested = false := h1
                rw [hctrl.2.1, hReq] at h2
                simp at h2
            have hmo : ¬(({ s2 with measurementReadyMs := u32 (now + s2.commandDelayMs) } : Driver).mode = Mode.SINGLE_SHOT) := by
              intro h1
              have h2 : s2.mode = Mode.SINGLE_SHOT := h1
              rw [hctrl.2.2.2.1] at h2
              exact hM h2
            have hgg : toInt32 (u32sub now (({ s2 with measurementReadyMs := u32 (now + s2.commandDelayMs) } : Driver).measurementReadyMs)) < 0 := by
              have h2 : ({ s2 with measurementReadyMs := u32 (now + s2.commandDelayMs) } : Driver).measurementReadyMs = u32 (now + s2.commandDelayMs) := rfl
              rw [h2, hctrl.2.2.2.2]
              exact gate_not_due now s.commandDelayMs hcd1 hcd2
            have ht2 : tickAux now ({ s2 with measurementReadyMs := u32 (now + s2.commandDelayMs) }) b2 = (TickOutcome.notDue, { s2 with measurementReadyMs := u32 (now + s2.commandDelayMs) }, b2) := by
              unfold tickAux
              rw [if_neg hga, if_neg hmo, if_pos hgg]
            unfold tick
            rw [ht]
            dsimp only
            rw [ht2]
          · have hfail : (tickAux now s b).1 = TickOutcome.failed st := by
              unfold tickAux
              rw [if_neg hC0, if_neg hM, if_neg hGate]
              dsimp only
              rw [hf]
              simp [hst, hnotr]
            exact absurd (hout st hfail) hnotr

/-- Witness for the amended claim C6: a due single-shot tick whose read
succeeds (valid CRC bytes); the second tick at the same now touches no bus. -/
theorem claim_C6_amended_witness :
    Bus.WF c6OkBus ∧ 1 ≤ c6State.commandDelayMs ∧ c6State.commandDelayMs ≤ 65535 ∧
    (tick 100 (tick 100 c6State c6OkBus).1 (tick 100 c6State c6OkBus).2).2 =
      (tick 100 c6State c6OkBus).2 := by
  have hwf : Bus.WF c6OkBus := by
    intro r hr
    have hr2 : r = { status := Err.OK, rx := [0, 0, 129, 0, 0, 129] } := by
      simpa [c6OkBus] using hr
    rw [hr2]
    decide
  refine ⟨hwf, by decide, by decide,
    claim_C6_amended 100 c6State c6OkBus hwf (by decide) (by decide) ?_⟩
  intro e h
  have hh : (tickAux 100 c6State c6OkBus).1 = TickOutcome.fetched := by decide
  rw [hh] at h
  exact absurd h (by simp)

/-- Claim C7: the fixed-point conversions.  For raw in [0, 65535] the
temperature is ((17500 raw + 32767) / 65535) - 4500 exactly, which is
round-half-up(17500 raw / 65535) - 4500; humidity is
(10000 raw + 32767) / 65535, its round-half-up form; neither numerator
overflows int32 / uint32; and the boundary values are (-4500, 0) at raw 0
and (13000, 10000) at raw 65535. -/
theorem claim_C7_conversions (raw : Nat) (h : raw ≤ 65535) :
    convertTemperatureC_x100 raw = (((17500 * raw + 32767) / 65535 : Nat) : Int) - 4500 ∧
    convertTemperatureC_x100 raw = ((roundHalfUpDiv (17500 * raw) 65535 : Nat) : Int) - 4500 ∧
    convertHumidityPct_x100 raw = (10000 * raw + 32767) / 65535 ∧
    convertHumidityPct_x100 raw = roundHalfUpDiv (10000 * raw) 65535 ∧
    17500 * raw + 32767 < 2147483648 ∧
    10000 * raw + 32767 < 4294967296 ∧
    convertTemperatureC_x100 0 = -4500 ∧ convertHumidityPct_x100 0 = 0 ∧
    convertTemperatureC_x100 65535 = 13000 ∧ convertHumidityPct_x100 65535 = 10000 := by
  refine ⟨rfl, ?_, rfl, ?_, by omega, by omega, by decide, by decide, by decide, by decide⟩
  · unfold convertTemperatureC_x100
    rw [← add_half_div_eq_roundHalfUp]
  · unfold convertHumidityPct_x100
    rw [← add_half_div_eq_roundHalfUp]

/-- Witness for claim C7 at raw = 0. -/
theorem claim_C7_conversions_witness :
    (0 : Nat) ≤ 65535 ∧ convertTemperatureC_x100 0 = -4500 :=
  ⟨by decide, (claim_C7_conversions 0 (by decide)).2.2.2.2.2.2.1⟩

/-- Claim C8 (spec-modelled orchestration, source-embedded verification):
resetAndRestore performs the recovery ladder first, then the four cached
settings in the order repeatability, clock stretching, periodic rate,
heater, then exactly the valid alert limits in slot order (each a write
immediately followed by status verification), and finally the cached mode
(start periodic with the cached rate and repeatability, start ART, or stay
single-shot).  The verification embedded from SHT3x::writeAlertLimitRaw
maps a set write-crc-error status bit to WRITE_CRC_ERROR and a set
command-error bit to COMMAND_FAILED. -/
theorem claim_C8_restore_order (c : CachedSettings) (now v raw : Nat) (s : Driver)
    (k : AlertLimitKind) (hraw : raw < 65536)
    (hinit : s.initialized = true) (hper : s.periodicActive = false) :
    (resetAndRestorePlan c).head? = some RestoreStep.recoveryLadder ∧
    ((resetAndRestorePlan c).drop 1).take 4 =
      [RestoreStep.applyRepeatability c.repeatability,
       RestoreStep.applyClockStretching c.clockStretching,
       RestoreStep.applyPeriodicRate c.periodicRate,
       RestoreStep.applyHeater c.heaterEnabled] ∧
    (resetAndRestorePlan c).drop 5 =
      ((alertKinds.filter fun k2 => c.alertValid k2).map
        fun k2 => RestoreStep.writeAlertLimitVerified k2 (c.alertRaw k2)) ++
      [modeRestoreStep c] ∧
    (c.mode = Mode.PERIODIC →
      modeRestoreStep c = RestoreStep.startPeriodicMode c.periodicRate c.repeatability) ∧
    (c.mode = Mode.ART → modeRestoreStep c = RestoreStep.startArtMode) ∧
    (c.mode = Mode.SINGLE_SHOT → modeRestoreStep c = RestoreStep.staySingleShot) ∧
    (writeAlertLimitRaw now k v s (statusBus raw)).1 =
      (if raw &&& 1 ≠ 0 then Err.WRITE_CRC_ERROR
       else if raw &&& 2 ≠ 0 then Err.COMMAND_FAILED
       else Err.OK) := by
  refine ⟨rfl, rfl, rfl, fun h => by rw [modeRestoreStep, h], fun h => by rw [modeRestoreStep, h],
    fun h => by rw [modeRestoreStep, h], ?_⟩
  have h1 : raw / 256 % 256 = raw / 256 := Nat.mod_eq_of_lt (by omega)
  have h2 : raw % 256 % 256 = raw % 256 := Nat.mod_eq_of_lt (Nat.mod_lt _ (by omega))
  have h3 : crc8 [raw / 256, raw % 256] % 256 = crc8 [raw / 256, raw % 256] :=
    Nat.mod_eq_of_lt (crc8_pair_lt _ _)
  have h4 : raw / 256 % 256 * 256 + raw % 256 % 256 = raw := by omega
  unfold writeAlertLimitRaw
  rw [if_neg (by simp [hinit]), if_neg (by simp [hper])]
  unfold statusBus
  dsimp only
  rw [writeCommandWithData_ok]
  dsimp only
  rw [if_neg (by simp : ¬(Err.OK ≠ Err.OK))]
  rw [readStatusRaw_ok]
  rw [if_neg (by rw [h1, h2, h3]; simp : ¬(crc8 [raw / 256 % 256, raw % 256 % 256] ≠ crc8 [raw / 256, raw % 256] % 256))]
  dsimp only
  rw [if_neg (by simp : ¬(Err.OK ≠ Err.OK))]
  rw [h4]
  split_ifs <;> rfl

/-- Witness for claim C8: the concrete cache restores in order, and a
status word 3 (both error bits set) makes the verified alert write fail
with WRITE_CRC_ERROR. -/
theorem claim_C8_restore_order_witness :
    (3 : Nat) < 65536 ∧ readyDriver.initialized = true ∧ readyDriver.periodicActive = false ∧
    (resetAndRestorePlan c8Cache).head? = some RestoreStep.recoveryLadder ∧
    (writeAlertLimitRaw 9 AlertLimitKind.HIGH_SET 8738 readyDriver (statusBus 3)).1 =
      Err.WRITE_CRC_ERROR := by
  have h := claim_C8_restore_order c8Cache 9 8738 3 readyDriver AlertLimitKind.HIGH_SET
    (by decide) (by decide) (by decide)
  refine ⟨by decide, by decide, by decide, h.1, ?_⟩
  rw [h.2.2.2.2.2.2]
  decide

/-- Claim C9: wrap-safe time comparison.  For u32 inputs, timeElapsed is
true exactly when (now - target) reduced into [0, 2^32) lies below 2^31,
that is when the difference interpreted as a signed 32-bit integer is
nonnegative; in particular now = 5 against target = 0xFFFFFFF0 elapses. -/
theorem claim_C9_timeElapsed (now target : Nat) (h1 : now < U32MOD) (h2 : target < U32MOD) :
    (timeElapsed now target = true ↔
      ((now : Int) - (target : Int)) % ((U32MOD : Nat) : Int) < ((I32HALF : Nat) : Int)) ∧
    timeElapsed 5 4294967280 = true := by
  constructor
  · simp only [U32MOD] at h1 h2
    simp only [timeElapsed, u32sub, toInt32, U32MOD, I32HALF, decide_eq_true_eq]
    split_ifs with hx <;> omega
  · decide

/-- Witness for claim C9 at the wrap pair from the specification. -/
theorem claim_C9_timeElapsed_witness :
    (5 : Nat) < U32MOD ∧ (4294967280 : Nat) < U32MOD ∧
    ((timeElapsed 5 4294967280 = true ↔
      (((5 : Nat) : Int) - ((4294967280 : Nat) : Int)) % ((U32MOD : Nat) : Int) <
        ((I32HALF : Nat) : Int)) ∧
     timeElapsed 5 4294967280 = true) :=
  ⟨by decide, by decide, claim_C9_timeElapsed 5 4294967280 (by decide) (by decide)⟩

/-- Claim C10: with the driver initialized and the periodic stream active,
readStatus, clearStatus, setHeater, softReset, readSerialNumber,
readAlertLimitRaw and writeAlertLimitRaw all return BUSY, leave the driver
state untouched and invoke no transport callback. -/
theorem claim_C10_busy_guards (now : Nat) (s : Driver) (b : Bus) (v : Nat)
    (k : AlertLimitKind) (stretch : ClockStretching) (en : Bool)
    (hinit : s.initialized = true) (hper : s.periodicActive = true) :
    readStatus now s b = (Err.BUSY, 0, s, b) ∧
    clearStatus now s b = (Err.BUSY, s, b) ∧
    setHeater now en s b = (Err.BUSY, s, b) ∧
    softReset now s b = (Err.BUSY, s, b) ∧
    readSerialNumber now stretch s b = (Err.BUSY, 0, s, b) ∧
    readAlertLimitRaw now k s b = (Err.BUSY, 0, s, b) ∧
    writeAlertLimitRaw now k v s b = (Err.BUSY, s, b) := by
  unfold readStatus clearStatus setHeater softReset readSerialNumber readAlertLimitRaw writeAlertLimitRaw
  simp [hinit, hper]

/-- Witness for claim C10 on a concrete periodic-active driver. -/
theorem claim_C10_busy_guards_witness :
    readyDriverP.initialized = true ∧ readyDriverP.periodicActive = true ∧
    readStatus 3 readyDriverP emptyBus = (Err.BUSY, 0, readyDriverP, emptyBus) := by
  refine ⟨by decide, by decide, ?_⟩
  exact (claim_C10_busy_guards 3 readyDriverP emptyBus 0 AlertLimitKind.HIGH_SET
    ClockStretching.STRETCH_DISABLED true rfl rfl).1

end SHT3xSpec
